import Mathlib

/-!
Verification development for the diagnostic orchestration engine of the
UAVLogViewer backend (`src/backend/chat_agent.py`).

Python values are modelled as follows: strings are Lean `String`s, JSON
values are the inductive `Json` below (numbers modelled as `Int`, since no
claim depends on fractional JSON numbers), Python `dict`s appearing as JSON
objects are association lists, Python `None`-able lookups are `Option`.
External library calls (`json.loads`, `json.dumps`, `re.search`, `float`,
the OpenAI completion endpoint) are parameters of the modelled functions.
File-system state (the per-log rag JSON document and the per-log telemetry
document) is passed explicitly; `none` models a missing or unreadable file.
-/

/-- JSON values as produced by `json.loads`: objects, arrays, strings,
numbers (modelled as `Int`), booleans and null. -/
inductive Json where
  | null : Json
  | bool (b : Bool) : Json
  | num (n : Int) : Json
  | str (s : String) : Json
  | arr (elems : List Json) : Json
  | obj (fields : List (String × Json)) : Json

/-- Lookup in a JSON object association list, mirroring Python `dict.get`:
the first binding of the key, or `None`. -/
def Json.get : Json → String → Option Json
  | .obj fields, key => (fields.find? (fun p => p.1 = key)).map (·.2)
  | _, _ => none

/-- Python `str(...)` on a scalar JSON value (`str` on a parsed JSON scalar:
a string is rendered without quotes, booleans capitalized, null as None). -/
def pyStr : Json → String
  | .null => "None"
  | .bool true => "True"
  | .bool false => "False"
  | .num n => toString n
  | .str s => s
  | .arr _ => "<list>"
  | .obj _ => "<dict>"

/-- Token budgeting constant `MAX_INPUT_TOKENS = 20000` (chat_agent.py line 138). -/
def MAX_INPUT_TOKENS : Int := 20000

/-- Token budgeting constant `AVG_CHARS_PER_TOKEN = 4` (chat_agent.py line 140). -/
def AVG_CHARS_PER_TOKEN : Int := 4

/-- Embedding of `ChatAgent._truncate_text` (chat_agent.py lines 158-166):

    if not text or max_tokens <= 0: return text
    max_chars = max_tokens * AVG_CHARS_PER_TOKEN
    if len(text) <= max_chars: return text
    if max_chars <= 3: return text[:max_chars]
    return text[:max_chars - 3] + "..."
-/
def truncate_text (text : String) (max_tokens : Int) : String :=
  if text = "" ∨ max_tokens ≤ 0 then text
  else
    let max_chars := max_tokens * AVG_CHARS_PER_TOKEN
    if (text.length : Int) ≤ max_chars then text
    else if max_chars ≤ 3 then text.take max_chars.toNat
    else text.take (max_chars - 3).toNat ++ "..."

/-- Embedding of `ChatAgent._safe_parse_json` (chat_agent.py lines 146-151).
The external `json.loads` is the parameter `loads`; `loads raw = none`
models a `json.JSONDecodeError`. A parse result that is neither a dict nor
a list is wrapped as well. -/
def safe_parse_json (loads : String → Option Json) (raw_content : String) : Json :=
  match loads raw_content with
  | none => Json.obj [("raw", Json.str raw_content)]
  | some parsed =>
    match parsed with
    | .obj _ => parsed
    | .arr _ => parsed
    | _ => Json.obj [("raw", parsed)]

/-- Embedding of `ChatAgent._json_dump` (chat_agent.py lines 153-156); the
external `json.dumps` is the parameter `dumps`. -/
def json_dump (dumps : Json → String) (data : Json) : String :=
  match data with
  | .obj _ => dumps data
  | .arr _ => dumps data
  | _ => pyStr data

/-! ## Conversational memory store (`_append_agent_chat_to_history`, lines 75-136) -/

/-- Metadata dict of a context document; every key may be absent. -/
structure DocMetadata where
  created_at : Option String
  last_updated : Option String
  message_count : Option Int
  log_id : Option String
deriving DecidableEq, Repr

/-- A context document from the per-log rag JSON file; every key may be
absent (Python `doc.get(...)` returning `None` is modelled by `none`).
A `content` value that is present but not a string is also modelled as
`none`, matching the `isinstance(existing_content, str)` guard. -/
structure Doc where
  document_id : Option String
  document_type : Option String
  title : Option String
  content : Option String
  metadata : Option DocMetadata
deriving DecidableEq, Repr

/-- The per-log rag JSON file content; `documents := none` models a file
whose `documents` key is missing or not a list. Other top-level keys are
untouched by the modelled code and omitted. -/
structure RagData where
  documents : Option (List Doc)
deriving DecidableEq, Repr

/-- The delimited chat entry appended per call (chat_agent.py lines 96-100). -/
def chat_entry (timestamp agent_name question answer : String) : String :=
  "\n\n--- Agent Chat Entry " ++ timestamp ++ " [" ++ agent_name ++ "] ---\n"
    ++ "Question: " ++ question ++ "\nResponse: " ++ answer

/-- Header line of a fresh chat-history content blob (lines 113 and 125). -/
def chat_header (log_id : String) : String :=
  "Chat History for Flight Log " ++ log_id

/-- The fresh chat-history document created on first append (lines 109-120). -/
def new_chat_doc (log_id entry timestamp : String) : Doc :=
  { document_id := some (log_id ++ "_chat_history")
    document_type := some "chat_history"
    title := some ("Chat History - " ++ log_id)
    content := some (chat_header log_id ++ entry)
    metadata := some { created_at := some timestamp, last_updated := some timestamp,
                       message_count := some 1, log_id := some log_id } }

/-- In-place mutation of an existing chat-history document (lines 122-130):
append the entry to the content blob, `setdefault` the creation timestamp,
advance `last_updated`, increment `message_count` from a default of 0. -/
def mutate_chat_doc (log_id entry timestamp : String) (d : Doc) : Doc :=
  let existing := match d.content with
    | some s => s
    | none => chat_header log_id
  let m := d.metadata.getD { created_at := none, last_updated := none,
                             message_count := none, log_id := none }
  { d with
    content := some (existing ++ entry)
    metadata := some { m with created_at := some (m.created_at.getD timestamp),
                              last_updated := some timestamp,
                              message_count := some (m.message_count.getD 0 + 1) } }

/-- The documents-list update of one append: mutate the first document
typed `chat_history` in place, or append a fresh one at the end when none
exists (lines 102-130, find-first then create-or-mutate). -/
def update_documents (log_id entry timestamp : String) : List Doc → List Doc
  | [] => [new_chat_doc log_id entry timestamp]
  | d :: ds =>
    if d.document_type = some "chat_history" then
      mutate_chat_doc log_id entry timestamp d :: ds
    else
      d :: update_documents log_id entry timestamp ds

/-- Embedding of `_append_agent_chat_to_history` (chat_agent.py lines
75-136). `datetime.now().isoformat()` is the parameter `now`; the rag file
state is passed in and the rewritten state returned (`none` = file absent
or unreadable, left as-is). An empty or missing `log_id` and a missing
`documents` list are the early-return no-ops of the source. -/
def append_agent_chat_to_history (log_id : Option String)
    (agent_name question answer : String) (now : String)
    (store : Option RagData) : Option RagData :=
  match log_id with
  | none => store
  | some lid =>
    if lid = "" then store
    else
      match store with
      | none => none
      | some rag =>
        match rag.documents with
        | none => some rag
        | some docs =>
          let entry := chat_entry now agent_name question answer
          some { documents := some (update_documents lid entry now docs) }

/-- Number of documents typed `chat_history` in a documents list. -/
def chat_doc_count (docs : List Doc) : Nat :=
  (docs.filter (fun d => decide (d.document_type = some "chat_history"))).length

/-- Number of chat-history documents held by a (possibly absent) store. -/
def store_chat_count : Option RagData → Nat
  | some rag =>
    match rag.documents with
    | some docs => chat_doc_count docs
    | none => 0
  | none => 0

/-- Arguments of one memory-append call. -/
structure AppendOp where
  log_id : Option String
  agent : String
  question : String
  answer : String
  now : String
deriving Repr

/-- One memory-append step, as folded over a sequence of appends. -/
def apply_append (store : Option RagData) (op : AppendOp) : Option RagData :=
  append_agent_chat_to_history op.log_id op.agent op.question op.answer op.now store

/-! ## Context-document retrieval (`ChatAgent.get_rag_docs`, lines 354-368) -/

/-- The per-document filter loop of `get_rag_docs` (lines 361-364). Due to
Python operator precedence the line reads
`('document_type' in doc and re.search(pat, doc['document_type'], IGNORECASE)) or doc['document_type'] == 'reference'`,
so a document lacking the key falls through to the unguarded subscript and
raises `KeyError`. The external `re.search` truthiness is the parameter
`search` (pattern, then subject). -/
def filter_rag_docs (search : String → String → Bool) (pattern : String) :
    List Doc → Except String (List Doc)
  | [] => .ok []
  | d :: ds =>
    match d.document_type with
    | none => .error "KeyError: document_type"
    | some ty =>
      match filter_rag_docs search pattern ds with
      | .error e => .error e
      | .ok rest =>
        .ok (if search pattern ty ∨ ty = "reference" then d :: rest else rest)

/-- Embedding of `ChatAgent.get_rag_docs` (lines 354-368) after the file
load: with no filter (or the falsy empty-string filter, `if document_type:`)
every document is returned; otherwise the filter loop runs. -/
def get_rag_docs (search : String → String → Bool) (docs : List Doc)
    (document_type : Option String) : Except String (List Doc) :=
  match document_type with
  | none => .ok docs
  | some pattern =>
    if pattern = "" then .ok docs
    else filter_rag_docs search pattern docs

/-! ## Telemetry window extraction (`ChatAgent.get_flight_data`, lines 409-528) -/

/-- Lookup in an association list modelling a Python dict (`d.get(key)`). -/
def lookup_assoc {α : Type} (l : List (String × α)) (key : String) : Option α :=
  (l.find? (fun p => decide (p.1 = key))).map (·.2)

/-- One entry of `time_series_data`: the per-message-type `data` dict from
field name to the ordered value sequence (`time_boot_ms` is one of the
fields). Sample values are modelled as integers; the
`isinstance(window_values[0], (int, float))` guard of the source is then
always satisfied. -/
structure SeriesData where
  data : List (String × List Int)
deriving DecidableEq, Repr

/-- The per-log telemetry document `data/{log_id}.json`, restricted to the
keys read by `get_flight_data`: `time_series_data` and the three
`flight_summary` sequences (modes, events, text messages, the latter as
(time, severity, text) triples). -/
structure LogData where
  time_series_data : List (String × SeriesData)
  modes : List (Int × String)
  events : List (Int × String)
  text_messages : List (Int × String × String)
deriving DecidableEq, Repr

/-- Signal-name resolution (lines 450-457): the name `GPS` is served by the
first of `GPS[0]`, `GPS[1]`, `GPS[2]` present in `time_series_data`; any
other name is looked up directly. -/
def resolve_series (ts_data : List (String × SeriesData)) (signal : String) :
    Option SeriesData :=
  if signal = "GPS" then
    match lookup_assoc ts_data "GPS[0]" with
    | some d => some d
    | none =>
      match lookup_assoc ts_data "GPS[1]" with
      | some d => some d
      | none => lookup_assoc ts_data "GPS[2]"
  else
    lookup_assoc ts_data signal

/-- Indices of the time-axis samples inside the inclusive window (line 467:
`[i for i, t in enumerate(times) if start_ms <= t <= end_ms]`). -/
def window_indices (times : List Int) (start_ms end_ms : Int) : List Nat :=
  (List.range times.length).filter
    (fun i => decide (start_ms ≤ times.getD i 0 ∧ times.getD i 0 ≤ end_ms))

/-- Per-field in-window values (line 482:
`[values[i] for i in indices if i < len(values)]`). -/
def window_values (values : List Int) (indices : List Nat) : List Int :=
  (indices.filter (fun i => decide (i < values.length))).map
    (fun i => values.getD i 0)

/-- Python `min` over a nonempty list (0 on the unreachable empty case). -/
def list_min : List Int → Int
  | [] => 0
  | x :: xs => xs.foldl min x

/-- Python `max` over a nonempty list (0 on the unreachable empty case). -/
def list_max : List Int → Int
  | [] => 0
  | x :: xs => xs.foldl max x

/-- Python `sum(l) / len(l)` as a rational. -/
def list_avg (l : List Int) : Rat :=
  ((l.foldl (· + ·) 0 : Int) : Rat) / (l.length : Rat)

/-- The per-field statistics block (lines 484-489): the values list is
capped to the first 100 in-window values (`window_values[:100]`), while
min, max and avg are taken over all in-window values. -/
structure FieldStats where
  values : List Int
  min : Int
  max : Int
  avg : Rat
deriving DecidableEq, Repr

/-- Build the statistics block for one field from its in-window values. -/
def field_stats (wv : List Int) : FieldStats :=
  { values := wv.take 100, min := list_min wv, max := list_max wv, avg := list_avg wv }

/-- The per-signal result block (lines 472-489). -/
structure SignalData where
  samples : Nat
  time_range : List Int
  fields : List (String × FieldStats)
deriving DecidableEq, Repr

/-- Per-signal extraction (lines 448-491); `none` models the three `continue`
branches: series absent, empty time axis, or no sample inside the window. -/
def extract_signal (ts_data : List (String × SeriesData)) (start_ms end_ms : Int)
    (signal : String) : Option SignalData :=
  match resolve_series ts_data signal with
  | none => none
  | some d =>
    let times := (lookup_assoc d.data "time_boot_ms").getD []
    if times = [] then none
    else
      let indices := window_indices times start_ms end_ms
      if indices = [] then none
      else
        some
          { samples := indices.length
            time_range := [times.getD (indices.headD 0) 0, times.getD (indices.getLastD 0) 0]
            fields := d.data.filterMap (fun p =>
              if p.1 = "time_boot_ms" then none
              else
                let wv := window_values p.2 indices
                if wv = [] then none
                else some (p.1, field_stats wv)) }

/-- The `context` block of the result (lines 494-523): latest mode at or
before the timestamp (scan stopping at the first later mode change), and
the events and text messages inside the window. -/
structure ContextInfo where
  mode : String
  events : List (Int × String)
  messages : List (Int × String)
deriving DecidableEq, Repr

/-- Mode scan of lines 500-505: walk the ordered mode list, remembering the
mode of every change at or before the timestamp, stopping at the first
change after it. -/
def current_mode : List (Int × String) → Int → String → String
  | [], _, cur => cur
  | (mode_time, mode) :: rest, ts, cur =>
    if mode_time ≤ ts then current_mode rest ts mode else cur

/-- Result of `get_flight_data`: either the `{"error": ...}` dict or the
result dict (timestamp, window_seconds, signals, context). The `anomalies`
list (lines 525-526, formatted diagnostic strings derived from the fields
already present in `signals` and `context`) is outside the modelled
fragment and carried by no claim. -/
inductive FlightResult where
  | error (msg : String)
  | ok (timestamp : Int) (window_seconds : Int) (signals : List (String × SignalData))
      (context : ContextInfo)
deriving DecidableEq, Repr

/-- Default signal set (line 431). -/
def DEFAULT_SIGNALS : List String := ["ATT", "GPS", "XKQ", "PARM"]

/-- Embedding of `ChatAgent.get_flight_data` (lines 409-528). The log file
state is the parameter `log` (`none` = `FileNotFoundError`); `log_id` is the
agent field (`none` or empty = falsy). The window is
`timestamp_ms ± window_sec * 500`. -/
def get_flight_data (log_id : Option String) (log : Option LogData)
    (timestamp_ms : Int) (signals : Option (List String)) (window_sec : Int) :
    FlightResult :=
  match log_id with
  | none => .error "No log_id specified"
  | some lid =>
    if lid = "" then .error "No log_id specified"
    else
      match log with
      | none => .error ("Log file " ++ lid ++ ".json not found")
      | some log_data =>
        let sigs := signals.getD DEFAULT_SIGNALS
        let start_ms := timestamp_ms - window_sec * 500
        let end_ms := timestamp_ms + window_sec * 500
        .ok timestamp_ms window_sec
          (sigs.filterMap (fun s =>
            (extract_signal log_data.time_series_data start_ms end_ms s).map
              (fun d => (s, d))))
          { mode := current_mode log_data.modes timestamp_ms "Unknown"
            events := log_data.events.filter
              (fun e => decide (start_ms ≤ e.1 ∧ e.1 ≤ end_ms))
            messages := (log_data.text_messages.filter
              (fun m => decide (start_ms ≤ m.1 ∧ m.1 ≤ end_ms))).map
              (fun m => (m.1, m.2.2)) }

/-- Whether a flight-data result is the error dict. -/
def FlightResult.isError : FlightResult → Bool
  | .error _ => true
  | .ok _ _ _ _ => false

/-- Names of the signals present in a flight-data result. -/
def FlightResult.signalNames : FlightResult → List String
  | .error _ => []
  | .ok _ _ sigs _ => sigs.map (·.1)

/-- The capped values list reported for one field of one signal. -/
def FlightResult.fieldValues (r : FlightResult) (signal field : String) :
    Option (List Int) :=
  match r with
  | .error _ => none
  | .ok _ _ sigs _ =>
    match lookup_assoc sigs signal with
    | none => none
    | some sd => (lookup_assoc sd.fields field).map (·.values)

/-- The reported `time_range` of one signal. -/
def FlightResult.timeRange (r : FlightResult) (signal : String) :
    Option (List Int) :=
  match r with
  | .error _ => none
  | .ok _ _ sigs _ => (lookup_assoc sigs signal).map (·.time_range)

/-! ## Integration step (`ChatAgent.call_integration`, lines 290-321) -/

/-- The integration system prompt (chat_agent.py lines 65-74); leading
indentation and apostrophes of the source text are normalized, no claim
depends on the exact characters of this opaque constant. -/
def INTEGRATION_SYSTEM_PROMPT : String :=
  "You are an expert in ArduPilot operations and vehicle diagnosis.\n"
    ++ "You are the integration expert.\n"
    ++ "Ensure you are reasoning and cross-analyzing between experts analysis and your own analysis. Do not modify the expert data.\n"
    ++ "Hypothesize about any patterns or correlations between the experts analysis and your own analysis. Do not modify the expert data.\n"
    ++ "Help the user solve the problem or provide additional context that might not be obvious. Do not modify the expert data.\n"
    ++ "timestamps: array of timestamps from the experts,\n"
    ++ "findings: array of findings from the experts,\n"
    ++ "diagnostics: dictionary of diagnostics from the experts"

/-- The known specialist identities, the keys of `EXPERT_SYSTEM_PROMPT`
(lines 34-63) as listed in the planner prompt (line 30). -/
def KNOWN_EXPERTS : List String := ["attitude", "gps", "ekf", "parameters"]

/-- The `Title: ...\nContent: ...` context block built from rag documents
(line 292), with absent keys defaulting to the empty string. -/
def doc_context (docs : List Doc) : String :=
  String.intercalate "\n\n" (docs.map (fun d =>
    "Title: " ++ d.title.getD "" ++ "\nContent: " ++ d.content.getD ""))

/-- Observable side effects of an orchestration step: a reasoning-call
completion, a memory append, or a dispatch of a specialist. The last
constructor gives the vocabulary in which (the absence of) additional
expert dispatch is stated. -/
inductive Event where
  | completion (system user : String)
  | history_append (agent question answer : String)
  | expert_dispatch (expert : String)
deriving DecidableEq, Repr

/-- Whether an event is a reasoning-call completion. -/
def Event.isCompletion : Event → Bool
  | .completion _ _ => true
  | _ => false

/-- Whether an event is a specialist dispatch. -/
def Event.isDispatch : Event → Bool
  | .expert_dispatch _ => true
  | _ => false

/-- The user content of the single integration completion (lines 296-310):
per-expert sections `name: payload` each truncated to an even share
`max(1, MAX_INPUT_TOKENS // expert_count)` of the budget, joined by
newlines, truncated again, and prefixed by the truncated question. -/
def integration_user_content (dumps : Json → String) (question : String)
    (expert_responses : List (String × Json)) : String :=
  let prompt_question := truncate_text question MAX_INPUT_TOKENS
  let expert_count : Int := max 1 (expert_responses.length : Int)
  let per_expert_budget : Int := max 1 (MAX_INPUT_TOKENS / expert_count)
  let sections := expert_responses.map (fun p =>
    p.1 ++ ": " ++ truncate_text (json_dump dumps p.2) per_expert_budget)
  let expert_payload := truncate_text (String.intercalate "\n" sections) MAX_INPUT_TOKENS
  "Question: " ++ prompt_question ++ "\n\nExpert Responses:\n" ++ expert_payload

/-- Embedding of `ChatAgent.call_integration` (lines 290-321) with its
effect trace. External collaborators are parameters: `loads`/`dumps` for
the json module, `complete` for the OpenAI completion (system content,
user content to returned text). The rag context of line 292-293 is computed
but never used by the source; the unused binding mirrors that. Returns the
defensively parsed response together with the emitted events in order. -/
def call_integration (loads : String → Option Json) (dumps : Json → String)
    (complete : String → String → String) (docs : List Doc) (question : String)
    (expert_responses : List (String × Json)) : Json × List Event :=
  let _context := truncate_text (doc_context docs) MAX_INPUT_TOKENS
  let user := integration_user_content dumps question expert_responses
  let content := complete INTEGRATION_SYSTEM_PROMPT user
  let parsed := safe_parse_json loads content
  (parsed,
    [Event.completion INTEGRATION_SYSTEM_PROMPT user,
     Event.history_append "integration" question content])

/-! ## Orchestrator planner-output handling (`ChatAgent.debug_chatbot`, lines 323-343) -/

/-- The time windows taken from the parsed planner response (line 329):
`planner_response.get("requested_time_windows", [])`. A present value that
is not a list would raise at the subsequent `for` loop and is outside the
modelled scope (mapped to the empty iteration). -/
def planner_time_windows (parsed : Json) : List Json :=
  match (parsed.get "requested_time_windows").getD (Json.arr []) with
  | Json.arr l => l
  | _ => []

/-- The experts taken from the parsed planner response (line 328):
`planner_response.get("requested_experts", [])`. -/
def planner_experts (parsed : Json) : List Json :=
  match (parsed.get "requested_experts").getD (Json.arr []) with
  | Json.arr l => l
  | _ => []

/-- Python `float(...)` applied to one requested time window (lines
333-343): strings go through the external parser `pyFloat` (`none` =
`ValueError`), numbers and booleans convert, `None`/dicts/lists raise
`TypeError`; both exceptions are caught and the window skipped. -/
def to_timestamp (pyFloat : String → Option Int) : Json → Option Int
  | .str s => pyFloat s
  | .num n => some n
  | .bool b => some (if b then 1 else 0)
  | _ => none

/-- The `flight_data` accumulated by `debug_chatbot` before experts are
dispatched (lines 324-343): one `get_flight_data` fetch per convertible
requested time window, always with the default signal set and
`window_sec = 1`. The result is modelled as the ordered fetch list keyed
by the converted timestamp (the string keying of the source dict carries
no claim). -/
def debug_flight_data (pyFloat : String → Option Int) (parsed : Json)
    (log_id : Option String) (log : Option LogData) : List (Int × FlightResult) :=
  (planner_time_windows parsed).filterMap (fun tw =>
    (to_timestamp pyFloat tw).map (fun ts => (ts, get_flight_data log_id log ts none 1)))

/-! ## Concrete fixtures used by counterexamples and witnesses -/

/-- A 200-sample integer ramp 0,1,...,199. -/
def att_ramp : List Int := (List.range 200).map Int.ofNat

/-- An ATT series with 200 samples at t = 0..199 ms and one ramp field. -/
def att_series : SeriesData :=
  { data := [("time_boot_ms", att_ramp), ("Roll", att_ramp)] }

/-- Telemetry log whose ATT window around t = 100 holds 200 samples. -/
def log1 : LogData :=
  { time_series_data := [("ATT", att_series)], modes := [], events := [],
    text_messages := [] }

/-- 100 timestamps 1000..1099 ms. -/
def att_late_times : List Int := (List.range 100).map (fun i => 1000 + (i : Int))

/-- An ATT series whose samples all lie in 1000..1099 ms. -/
def att_series2 : SeriesData :=
  { data := [("time_boot_ms", att_late_times), ("Roll", att_late_times)] }

/-- Telemetry log whose only samples lie well before t = 5000 ms. -/
def log2 : LogData :=
  { time_series_data := [("ATT", att_series2)], modes := [], events := [],
    text_messages := [] }

/-- A context document lacking the `document_type` key. -/
def doc_no_type : Doc :=
  { document_id := some "d1", document_type := none, title := none,
    content := none, metadata := none }

/-- A context document typed `reference`. -/
def doc_reference : Doc :=
  { document_id := some "d2", document_type := some "reference",
    title := some "ArduPilot docs", content := some "ref text", metadata := none }

/-- An ordinary ingestion-time context document (not chat history). -/
def doc_overview : Doc :=
  { document_id := some "log7_overview", document_type := some "overview",
    title := some "Overview", content := some "overview text", metadata := none }

/-- First memory append of the C8 witness run. -/
def op1 : AppendOp :=
  { log_id := some "log7", agent := "planner", question := "q1", answer := "a1",
    now := "t1" }

/-- Second memory append of the C8 witness run. -/
def op2 : AppendOp :=
  { log_id := some "log7", agent := "integration", question := "q2",
    answer := "a2", now := "t2" }

/-- A parsed planner response carrying experts but no
`requested_time_windows` key. -/
def planner_resp_no_windows : Json :=
  Json.obj [("requested_experts", Json.arr [Json.str "gps"])]

/-- A stub `json.loads` whose every answer requests the known specialist
`gps` as an additional expert. -/
def c3_loads : String → Option Json :=
  fun _ => some (Json.obj [("additional_experts", Json.arr [Json.str "gps"])])

/-- A stub reasoning call that always answers the additional-experts
request text. -/
def c3_complete : String → String → String :=
  fun _ _ => "\x7b\"additional_experts\": [\"gps\"]\x7d"

/-! ## Helper lemmas -/

theorem length_take_string (a : String) (k : Nat) :
    (a.take k).length = min k a.length := by
  show (a.take k).data.length = _
  rw [String.data_take, List.length_take]
  rfl

theorem truncate_eq_of_trivial (s : String) (n : Int) (h1 : s = "" ∨ n ≤ 0) :
    truncate_text s n = s := by
  unfold truncate_text
  exact if_pos h1

theorem truncate_eq_of_short (s : String) (n : Int)
    (h2 : (s.length : Int) ≤ n * AVG_CHARS_PER_TOKEN) :
    truncate_text s n = s := by
  unfold truncate_text
  by_cases h1 : s = "" ∨ n ≤ 0
  · exact if_pos h1
  · rw [if_neg h1]
    exact if_pos h2

theorem truncate_eq_of_long (s : String) (n : Int)
    (hn : 0 < n) (h2 : ¬ (s.length : Int) ≤ n * AVG_CHARS_PER_TOKEN) :
    truncate_text s n = s.take (n * AVG_CHARS_PER_TOKEN - 3).toNat ++ "..." := by
  have hs : ¬ (s = "" ∨ n ≤ 0) := by
    push_neg
    constructor
    · intro he
      apply h2
      rw [he]
      show ((0 : Nat) : Int) ≤ _
      have h3 : (0 : Int) < n * AVG_CHARS_PER_TOKEN := by
        show (0 : Int) < n * 4
        omega
      omega
    · exact hn
  unfold truncate_text
  rw [if_neg hs, if_neg h2, if_neg]
  show ¬ n * AVG_CHARS_PER_TOKEN ≤ 3
  show ¬ n * 4 ≤ 3
  omega

theorem truncate_length_of_long (s : String) (n : Int)
    (hn : 0 < n) (h2 : ¬ (s.length : Int) ≤ n * AVG_CHARS_PER_TOKEN) :
    ((truncate_text s n).length : Int) = n * AVG_CHARS_PER_TOKEN := by
  rw [truncate_eq_of_long s n hn h2, String.length_append, length_take_string]
  have hk : (((n * AVG_CHARS_PER_TOKEN - 3).toNat : Int)) = n * AVG_CHARS_PER_TOKEN - 3 := by
    apply Int.toNat_of_nonneg
    show (0 : Int) ≤ n * 4 - 3
    omega
  have hlt : (n * AVG_CHARS_PER_TOKEN - 3).toNat ≤ s.length := by
    have h4 : ¬ (s.length : Int) ≤ n * 4 := h2
    omega
  rw [min_eq_left hlt]
  show (((n * AVG_CHARS_PER_TOKEN - 3).toNat + 3 : Nat) : Int) = _
  push_cast
  rw [hk]
  ring

/-! ## Claims C5, C6, C9 -/

/-- C5 (corrected): for every string `s` and integer budget `n`,
`truncate(s, n)` returns `s` unchanged when `n <= 0` or `s` is empty, and
also whenever `len(s) <= n * 4`; for a positive budget the result length is
bounded by `max(n * 4, 3)` (indeed by `n * 4`); and whenever truncation
occurs, the output is the head of `s` cut to `n * 4 - 3` characters followed
by the 3-character ellipsis marker. (The unrestricted length bound of the
original claim fails for non-positive budgets, see the counterexample.) -/
theorem truncate_text_budget (s : String) (n : Int) :
    ((n ≤ 0 ∨ s = "") → truncate_text s n = s) ∧
    ((s.length : Int) ≤ n * AVG_CHARS_PER_TOKEN → truncate_text s n = s) ∧
    (0 < n → ((truncate_text s n).length : Int) ≤ max (n * AVG_CHARS_PER_TOKEN) 3) ∧
    (truncate_text s n ≠ s →
      truncate_text s n = s.take (n * AVG_CHARS_PER_TOKEN - 3).toNat ++ "...") := by
  refine ⟨fun h => truncate_eq_of_trivial s n h.symm, truncate_eq_of_short s n, ?_, ?_⟩
  · intro hn
    by_cases h2 : (s.length : Int) ≤ n * AVG_CHARS_PER_TOKEN
    · rw [truncate_eq_of_short s n h2]
      exact le_trans h2 (le_max_left _ _)
    · rw [truncate_length_of_long s n hn h2]
      exact le_max_left _ _
  · intro hne
    by_cases h1 : s = "" ∨ n ≤ 0
    · exact absurd (truncate_eq_of_trivial s n h1) hne
    · push_neg at h1
      by_cases h2 : (s.length : Int) ≤ n * AVG_CHARS_PER_TOKEN
      · exact absurd (truncate_eq_of_short s n h2) hne
      · exact truncate_eq_of_long s n h1.2 h2

/-- Witness for C5 at concrete inputs: a 16-character string with budget 2
is cut to 8 characters ending in the ellipsis marker, and a short string is
returned unchanged. -/
theorem truncate_text_budget_witness :
    ((("0123456789abcdef" : String).length : Int) ≤ 2 * AVG_CHARS_PER_TOKEN →
      truncate_text "0123456789abcdef" 2 = "0123456789abcdef") ∧
    ((truncate_text "0123456789abcdef" 2).length : Int) ≤ max (2 * AVG_CHARS_PER_TOKEN) 3 ∧
    truncate_text "hi" 5 = "hi" :=
  ⟨(truncate_text_budget "0123456789abcdef" 2).2.1,
   (truncate_text_budget "0123456789abcdef" 2).2.2.1 (by decide),
   (truncate_text_budget "hi" 5).2.1 (by decide)⟩

/-- Counterexample to C5 as stated: with a non-positive budget the input is
returned unchanged, so a 10-character string under budget 0 violates the
claimed unconditional length bound `max(n * 4, 3) = 3`. -/
theorem c5_length_bound_counterexample :
    truncate_text "aaaaaaaaaa" 0 = "aaaaaaaaaa" ∧
    ¬ (((truncate_text "aaaaaaaaaa" 0).length : Int) ≤
        max ((0 : Int) * AVG_CHARS_PER_TOKEN) 3) := by
  constructor
  · decide
  · decide

/-- C6 (confirmed): truncation is idempotent, for every string and every
integer budget: `truncate(truncate(s, n), n) == truncate(s, n)`. -/
theorem truncate_text_idempotent (s : String) (n : Int) :
    truncate_text (truncate_text s n) n = truncate_text s n := by
  by_cases h1 : s = "" ∨ n ≤ 0
  · rw [truncate_eq_of_trivial s n h1, truncate_eq_of_trivial s n h1]
  · push_neg at h1
    obtain ⟨hs, hn⟩ := h1
    by_cases h2 : (s.length : Int) ≤ n * AVG_CHARS_PER_TOKEN
    · rw [truncate_eq_of_short s n h2, truncate_eq_of_short s n h2]
    · apply truncate_eq_of_short
      rw [truncate_length_of_long s n hn h2]

/-- C9 (confirmed): whenever the raw reasoning-call output fails JSON
parsing (`loads raw = none` models `json.JSONDecodeError`), the defensive
parse returns the wrapper object `{"raw": raw}` instead of raising. -/
theorem safe_parse_json_nonjson_wrapper (loads : String → Option Json)
    (raw : String) (h : loads raw = none) :
    safe_parse_json loads raw = Json.obj [("raw", Json.str raw)] := by
  unfold safe_parse_json
  rw [h]

/-- Witness for C9: the concrete non-JSON reply `not json at all` yields
`{"raw": "not json at all"}`. -/
theorem safe_parse_json_nonjson_wrapper_witness :
    safe_parse_json (fun _ => none) "not json at all"
      = Json.obj [("raw", Json.str "not json at all")] :=
  safe_parse_json_nonjson_wrapper (fun _ => none) "not json at all" rfl

/-! ## Claims C3, C4 -/

/-- C3 (corrected): `call_integration` is a single-shot step, not a
self-extension loop: for every input it dispatches no additional
specialists, performs exactly one reasoning-call completion (in particular
at most `identities + 1`), and returns the defensive parse of that single
response — also when that parsed response names known, not-yet-consulted
specialists under `additional_experts`. -/
theorem call_integration_single_round (loads : String → Option Json)
    (dumps : Json → String) (complete : String → String → String)
    (docs : List Doc) (question : String)
    (expert_responses : List (String × Json)) :
    ((call_integration loads dumps complete docs question expert_responses).2.filter
        Event.isDispatch = []) ∧
    (((call_integration loads dumps complete docs question expert_responses).2.filter
        Event.isCompletion).length = 1) ∧
    (((call_integration loads dumps complete docs question expert_responses).2.filter
        Event.isCompletion).length ≤ KNOWN_EXPERTS.length + 1) ∧
    ((call_integration loads dumps complete docs question expert_responses).1 =
      safe_parse_json loads (complete INTEGRATION_SYSTEM_PROMPT
        (integration_user_content dumps question expert_responses))) := by
  refine ⟨rfl, rfl, ?_, rfl⟩
  show 1 ≤ KNOWN_EXPERTS.length + 1
  decide

/-- Counterexample to C3 as stated: under a stub reasoning call whose
parsed result requests the known specialist `gps` as an additional expert,
while only `attitude` has been collected, the integrator still dispatches
nothing and completes exactly once; the returned result is the first (and
only) round's parse, still carrying the unserved `additional_experts`
request. -/
theorem c3_no_additional_dispatch_counterexample :
    ((call_integration c3_loads (fun _ => "") c3_complete []
        "why did it crash" [("attitude", Json.obj [])]).1.get "additional_experts"
      = some (Json.arr [Json.str "gps"])) ∧
    ("gps" ∈ KNOWN_EXPERTS) ∧
    ("gps" ∉ ["attitude"]) ∧
    ((call_integration c3_loads (fun _ => "") c3_complete []
        "why did it crash" [("attitude", Json.obj [])]).2.filter Event.isDispatch = []) ∧
    (((call_integration c3_loads (fun _ => "") c3_complete []
        "why did it crash" [("attitude", Json.obj [])]).2.filter Event.isCompletion).length = 1) := by
  exact ⟨rfl, by decide, by decide, rfl, rfl⟩

/-- C4 (corrected): when the parsed planner response lacks the
`requested_time_windows` key, `debug_chatbot` defaults it to the empty
list, so no telemetry at all is fetched before the experts are dispatched —
not to a whole-log sentinel window. -/
theorem debug_chatbot_absent_windows_empty (pyFloat : String → Option Int)
    (parsed : Json) (log_id : Option String) (log : Option LogData)
    (h : parsed.get "requested_time_windows" = none) :
    planner_time_windows parsed = [] ∧
    debug_flight_data pyFloat parsed log_id log = [] := by
  have h1 : planner_time_windows parsed = [] := by
    unfold planner_time_windows
    rw [h]
    rfl
  refine ⟨h1, ?_⟩
  unfold debug_flight_data
  rw [h1]
  rfl

/-- Witness for C4: a planner response that requests the gps expert but no
time windows leads to an empty flight-data map. -/
theorem debug_chatbot_absent_windows_empty_witness :
    planner_time_windows planner_resp_no_windows = [] ∧
    debug_flight_data (fun _ => none) planner_resp_no_windows
      (some "log1") (some log1) = [] :=
  debug_chatbot_absent_windows_empty (fun _ => none) planner_resp_no_windows
    (some "log1") (some log1) rfl

set_option maxRecDepth 8000 in
/-- Counterexample to C4 as stated: with the `requested_time_windows` key
absent (and gps requested), no telemetry is fetched at all, although the
same log does yield telemetry when an in-range extraction is performed —
so the pipeline does not behave as if a whole-log window had been
requested. -/
theorem c4_no_default_window_counterexample :
    (planner_resp_no_windows.get "requested_time_windows" = none) ∧
    (debug_flight_data (fun _ => none) planner_resp_no_windows
      (some "log1") (some log1) = []) ∧
    ((get_flight_data (some "log1") (some log1) 100 none 1).signalNames = ["ATT"]) := by
  exact ⟨rfl, rfl, rfl⟩

/-! ## Claims C7, C8 -/

theorem update_documents_no_chat (lid e ts : String) (docs : List Doc)
    (h : ∀ d ∈ docs, d.document_type ≠ some "chat_history") :
    update_documents lid e ts docs = docs ++ [new_chat_doc lid e ts] := by
  induction docs with
  | nil => rfl
  | cons d ds ih =>
    have hd : d.document_type ≠ some "chat_history" := h d (List.mem_cons_self d ds)
    simp only [update_documents]
    rw [if_neg hd, ih (fun x hx => h x (List.mem_cons_of_mem d hx))]
    rfl

theorem update_documents_mutate_last (lid e ts : String) (docs : List Doc) (d : Doc)
    (h : ∀ x ∈ docs, x.document_type ≠ some "chat_history")
    (hd : d.document_type = some "chat_history") :
    update_documents lid e ts (docs ++ [d]) = docs ++ [mutate_chat_doc lid e ts d] := by
  induction docs with
  | nil =>
    simp only [List.nil_append, update_documents]
    rw [if_pos hd]
  | cons x xs ih =>
    have hx : x.document_type ≠ some "chat_history" := h x (List.mem_cons_self x xs)
    simp only [List.cons_append, update_documents]
    rw [if_neg hx]
    exact congrArg (fun l => x :: l) (ih (fun y hy => h y (List.mem_cons_of_mem x hy)))

theorem append_some_docs (lid agent q a ts : String) (docs : List Doc)
    (hl : lid ≠ "") :
    append_agent_chat_to_history (some lid) agent q a ts
      (some { documents := some docs })
    = some ⟨some (update_documents lid (chat_entry ts agent q a) ts docs)⟩ := by
  simp only [append_agent_chat_to_history]
  rw [if_neg hl]

/-- C7 (confirmed): starting from a document collection that exists but
holds no chat-history document, two sequential memory appends produce a
single appended chat-history document whose `message_count` is 2, whose
`created_at` is the first append's timestamp (preserved by the second
append), whose `last_updated` is the second append's timestamp, and whose
content blob is the fresh header followed by the two delimited
question/response entries in insertion order. -/
theorem memory_two_appends_fresh_log (docs : List Doc)
    (lid a1 q1 r1 ts1 a2 q2 r2 ts2 : String)
    (hl : lid ≠ "")
    (h : ∀ d ∈ docs, d.document_type ≠ some "chat_history") :
    append_agent_chat_to_history (some lid) a2 q2 r2 ts2
      (append_agent_chat_to_history (some lid) a1 q1 r1 ts1
        (some { documents := some docs }))
    = some { documents := some (docs ++
        [{ document_id := some (lid ++ "_chat_history")
           document_type := some "chat_history"
           title := some ("Chat History - " ++ lid)
           content := some (chat_header lid ++ chat_entry ts1 a1 q1 r1
             ++ chat_entry ts2 a2 q2 r2)
           metadata := some { created_at := some ts1, last_updated := some ts2,
                              message_count := some 2, log_id := some lid } }]) } := by
  rw [append_some_docs lid a1 q1 r1 ts1 docs hl,
      append_some_docs lid a2 q2 r2 ts2 _ hl,
      update_documents_no_chat lid (chat_entry ts1 a1 q1 r1) ts1 docs h,
      update_documents_mutate_last lid (chat_entry ts2 a2 q2 r2) ts2 docs
        (new_chat_doc lid (chat_entry ts1 a1 q1 r1) ts1) h rfl]
  rfl

/-- Witness for C7: two concrete appends to a store holding one overview
document and no chat history. -/
theorem memory_two_appends_fresh_log_witness :
    append_agent_chat_to_history (some "log7") "integration" "q2" "a2" "t2"
      (append_agent_chat_to_history (some "log7") "planner" "q1" "a1" "t1"
        (some { documents := some [doc_overview] }))
    = some { documents := some ([doc_overview] ++
        [{ document_id := some ("log7" ++ "_chat_history")
           document_type := some "chat_history"
           title := some ("Chat History - " ++ "log7")
           content := some (chat_header "log7" ++ chat_entry "t1" "planner" "q1" "a1"
             ++ chat_entry "t2" "integration" "q2" "a2")
           metadata := some { created_at := some "t1", last_updated := some "t2",
                              message_count := some 2, log_id := some "log7" } }]) } :=
  memory_two_appends_fresh_log [doc_overview] "log7" "planner" "q1" "a1" "t1"
    "integration" "q2" "a2" "t2" (by decide) (by decide)

theorem chat_doc_count_cons (d : Doc) (ds : List Doc) :
    chat_doc_count (d :: ds)
      = (if d.document_type = some "chat_history" then 1 else 0) + chat_doc_count ds := by
  by_cases hd : d.document_type = some "chat_history"
  · simp [chat_doc_count, List.filter_cons, hd]
    omega
  · simp [chat_doc_count, List.filter_cons, hd]

theorem mutate_chat_doc_document_type (lid e ts : String) (d : Doc) :
    (mutate_chat_doc lid e ts d).document_type = d.document_type := rfl

theorem chat_doc_count_update (lid e ts : String) (docs : List Doc) :
    chat_doc_count (update_documents lid e ts docs)
      = if chat_doc_count docs = 0 then 1 else chat_doc_count docs := by
  induction docs with
  | nil => rfl
  | cons d ds ih =>
    by_cases hd : d.document_type = some "chat_history"
    · simp only [update_documents, if_pos hd]
      rw [chat_doc_count_cons, chat_doc_count_cons, mutate_chat_doc_document_type]
      rw [if_pos hd]
      have h1 : ¬ (1 + chat_doc_count ds = 0) := by omega
      rw [if_neg h1]
    · simp only [update_documents, if_neg hd]
      rw [chat_doc_count_cons, chat_doc_count_cons, ih]
      rw [if_neg hd]
      simp only [Nat.zero_add]

theorem update_documents_length_of_chat (lid e ts : String) (docs : List Doc)
    (h : ∃ d ∈ docs, d.document_type = some "chat_history") :
    (update_documents lid e ts docs).length = docs.length := by
  induction docs with
  | nil => exact absurd h (by simp)
  | cons d ds ih =>
    by_cases hd : d.document_type = some "chat_history"
    · simp only [update_documents, if_pos hd, List.length_cons]
    · simp only [update_documents, if_neg hd, List.length_cons]
      have hds : ∃ x ∈ ds, x.document_type = some "chat_history" := by
        rcases h with ⟨x, hx, hxt⟩
        rcases List.mem_cons.mp hx with h1 | h2
        · exact absurd (h1 ▸ hxt) hd
        · exact ⟨x, h2, hxt⟩
      rw [ih hds]

theorem store_chat_count_append_le (op : AppendOp) (s : Option RagData)
    (h : store_chat_count s ≤ 1) :
    store_chat_count (apply_append s op) ≤ 1 := by
  rcases op with ⟨olid, ag, q, a, ts⟩
  cases olid with
  | none => exact h
  | some lid =>
    by_cases hl : lid = ""
    · show store_chat_count (append_agent_chat_to_history (some lid) ag q a ts s) ≤ 1
      simp only [append_agent_chat_to_history]
      rw [if_pos hl]
      exact h
    · cases s with
      | none =>
        show store_chat_count (append_agent_chat_to_history (some lid) ag q a ts none) ≤ 1
        simp only [append_agent_chat_to_history]
        rw [if_neg hl]
        decide
      | some rag =>
        rcases rag with ⟨od⟩
        cases od with
        | none =>
          show store_chat_count
            (append_agent_chat_to_history (some lid) ag q a ts (some ⟨none⟩)) ≤ 1
          simp only [append_agent_chat_to_history]
          rw [if_neg hl]
          exact h
        | some docs =>
          show store_chat_count
            (append_agent_chat_to_history (some lid) ag q a ts (some ⟨some docs⟩)) ≤ 1
          rw [append_some_docs lid ag q a ts docs hl]
          show chat_doc_count (update_documents lid (chat_entry ts ag q a) ts docs) ≤ 1
          rw [chat_doc_count_update]
      
        
          have hc : chat_doc_count docs ≤ 1 := h
          by_cases h0 : chat_doc_count docs = 0
          · rw [if_pos h0]
          · rw [if_neg h0]
            exact hc

/-- C8 (confirmed): the at-most-one-chat-history-document invariant is
preserved by every sequence of memory appends; moreover one append creates
a fresh chat-history document (appended at the end) exactly when none
exists, and otherwise mutates the existing one in place, leaving the
collection size unchanged. -/
theorem chat_history_doc_unique_invariant (ops : List AppendOp)
    (store : Option RagData) (h : store_chat_count store ≤ 1) :
    store_chat_count (ops.foldl apply_append store) ≤ 1 ∧
    (∀ lid e ts docs, (∀ d ∈ docs, d.document_type ≠ some "chat_history") →
      update_documents lid e ts docs = docs ++ [new_chat_doc lid e ts]) ∧
    (∀ lid e ts docs, (∃ d ∈ docs, d.document_type = some "chat_history") →
      (update_documents lid e ts docs).length = docs.length) := by
  have main : ∀ (l : List AppendOp) (s : Option RagData), store_chat_count s ≤ 1 →
      store_chat_count (l.foldl apply_append s) ≤ 1 := by
    intro l
    induction l with
    | nil => intro s hs; exact hs
    | cons op rest ih =>
      intro s hs
      exact ih _ (store_chat_count_append_le op s hs)
  exact ⟨main ops store h,
    fun lid e ts docs hh => update_documents_no_chat lid e ts docs hh,
    fun lid e ts docs hh => update_documents_length_of_chat lid e ts docs hh⟩

/-- Witness for C8: two concrete appends starting from a store with no
chat-history document keep the count at most one. -/
theorem chat_history_doc_unique_invariant_witness :
    store_chat_count ([op1, op2].foldl apply_append (some ⟨some [doc_overview]⟩)) ≤ 1 :=
  (chat_history_doc_unique_invariant [op1, op2] (some ⟨some [doc_overview]⟩) (by decide)).1

/-! ## Claim C10 -/

theorem filter_rag_docs_error_of_missing_key (search : String → String → Bool)
    (pattern : String) (docs : List Doc)
    (h : ∃ d ∈ docs, d.document_type = none) :
    filter_rag_docs search pattern docs = .error "KeyError: document_type" := by
  induction docs with
  | nil => exact absurd h (by simp)
  | cons d ds ih =>
    cases hd : d.document_type with
    | none => simp only [filter_rag_docs, hd]
    | some ty =>
      have hds : ∃ x ∈ ds, x.document_type = none := by
        rcases h with ⟨x, hx, hxt⟩
        rcases List.mem_cons.mp hx with h1 | h2
        · rw [h1, hd] at hxt
          exact absurd hxt (by simp)
        · exact ⟨x, h2, hxt⟩
      simp only [filter_rag_docs, hd, ih hds]

theorem filter_rag_docs_keeps_reference (search : String → String → Bool)
    (pattern : String) (docs : List Doc) :
    ∀ res, filter_rag_docs search pattern docs = .ok res →
      ∀ d ∈ docs, d.document_type = some "reference" → d ∈ res := by
  induction docs with
  | nil =>
    intro res _ d hd
    exact absurd hd (by simp)
  | cons x xs ih =>
    intro res hok d hd href
    cases hx : x.document_type with
    | none =>
      rw [filter_rag_docs, hx] at hok
      exact absurd hok (by simp)
    | some ty =>
      rw [filter_rag_docs, hx] at hok
      cases htail : filter_rag_docs search pattern xs with
      | error e =>
        rw [htail] at hok
        exact absurd hok (by simp)
      | ok rest =>
        rw [htail] at hok
        have hres : (if search pattern ty ∨ ty = "reference" then x :: rest else rest) = res := by
          injection hok
        rcases List.mem_cons.mp hd with h1 | h2
        · subst h1
          rw [hx] at href
          have hty : ty = "reference" := by
            injection href
          have hcond : search pattern ty ∨ ty = "reference" := Or.inr hty
          rw [if_pos hcond] at hres
          rw [← hres]
          exact List.mem_cons_self d rest
        · have hrest : d ∈ rest := ih rest htail d h2 href
          by_cases hcond : search pattern ty ∨ ty = "reference"
          · rw [if_pos hcond] at hres
            rw [← hres]
            exact List.mem_cons_of_mem x hrest
          · rw [if_neg hcond] at hres
            rw [← hres]
            exact hrest

/-- C10 (confirmed): with a non-empty type filter, the context-document
retrieval raises `KeyError` whenever any document lacks the
`document_type` key (the filter expression falls through to the unguarded
subscript), and every document typed `reference` is included in any
successful result regardless of the filter pattern. -/
theorem get_rag_docs_keyerror_and_reference (search : String → String → Bool)
    (docs : List Doc) (pattern : String) (hp : pattern ≠ "") :
    ((∃ d ∈ docs, d.document_type = none) →
      get_rag_docs search docs (some pattern) = .error "KeyError: document_type") ∧
    (∀ res, get_rag_docs search docs (some pattern) = .ok res →
      ∀ d ∈ docs, d.document_type = some "reference" → d ∈ res) := by
  have hu : get_rag_docs search docs (some pattern)
      = filter_rag_docs search pattern docs := by
    show (if pattern = "" then Except.ok docs else filter_rag_docs search pattern docs)
      = filter_rag_docs search pattern docs
    rw [if_neg hp]
  constructor
  · intro h
    rw [hu]
    exact filter_rag_docs_error_of_missing_key search pattern docs h
  · intro res hok
    rw [hu] at hok
    exact filter_rag_docs_keeps_reference search pattern docs res hok

/-- Witness for C10: a collection holding one key-less document raises the
`KeyError`, and a collection holding one reference-typed document keeps it
under a filter pattern that matches nothing. -/
theorem get_rag_docs_keyerror_and_reference_witness :
    (get_rag_docs (fun _ _ => false) [doc_no_type] (some "gps")
      = .error "KeyError: document_type") ∧
    (∀ res, get_rag_docs (fun _ _ => false) [doc_reference] (some "gps") = .ok res →
      doc_reference ∈ res) :=
  ⟨(get_rag_docs_keyerror_and_reference (fun _ _ => false) [doc_no_type] "gps"
      (by decide)).1 ⟨doc_no_type, by simp, rfl⟩,
   fun res hok =>
    (get_rag_docs_keyerror_and_reference (fun _ _ => false) [doc_reference] "gps"
      (by decide)).2 res hok doc_reference (by simp) rfl⟩

/-! ## Claims C1, C2 -/

theorem get_flight_data_ok (lid : String) (log : LogData) (ts : Int)
    (sigs : Option (List String)) (w : Int) (hl : lid ≠ "") :
    get_flight_data (some lid) (some log) ts sigs w
      = FlightResult.ok ts w
          ((sigs.getD DEFAULT_SIGNALS).filterMap (fun s =>
            (extract_signal log.time_series_data (ts - w * 500) (ts + w * 500) s).map
              (fun d => (s, d))))
          { mode := current_mode log.modes ts "Unknown"
            events := log.events.filter
              (fun e => decide (ts - w * 500 ≤ e.1 ∧ e.1 ≤ ts + w * 500))
            messages := (log.text_messages.filter
              (fun m => decide (ts - w * 500 ≤ m.1 ∧ m.1 ≤ ts + w * 500))).map
              (fun m => (m.1, m.2.2)) } := by
  show (if lid = "" then FlightResult.error "No log_id specified"
        else FlightResult.ok ts w
          ((sigs.getD DEFAULT_SIGNALS).filterMap (fun s =>
            (extract_signal log.time_series_data (ts - w * 500) (ts + w * 500) s).map
              (fun d => (s, d))))
          { mode := current_mode log.modes ts "Unknown"
            events := log.events.filter
              (fun e => decide (ts - w * 500 ≤ e.1 ∧ e.1 ≤ ts + w * 500))
            messages := (log.text_messages.filter
              (fun m => decide (ts - w * 500 ≤ m.1 ∧ m.1 ≤ ts + w * 500))).map
              (fun m => (m.1, m.2.2)) }) = _
  rw [if_neg hl]

theorem notMem_signalNames_of_extract_none (g : String → Option SignalData)
    (xs : List String) (sig : String) (hg : g sig = none) :
    sig ∉ (xs.filterMap (fun s => (g s).map (fun d => (s, d)))).map (·.1) := by
  induction xs with
  | nil => simp
  | cons x xs ih =>
    cases hx : g x with
    | none =>
      have hfx : ((g x).map (fun d => (x, d))) = none := by rw [hx]; rfl
      rw [List.filterMap_cons, hfx]
      exact ih
    | some d =>
      have hfx : ((g x).map (fun d => (x, d))) = some (x, d) := by rw [hx]; rfl
      rw [List.filterMap_cons, hfx]
      simp only [List.map_cons, List.mem_cons]
      rintro (h1 | h2)
      · rw [h1] at hg
        rw [hg] at hx
        exact Option.noConfusion hx
      · exact ih h2

/-- C2 (corrected): there is no OutOfRange failure in the extraction: when
the log id and log file are present the result is never the error dict,
and a requested signal with no sample inside the window (in particular one
whose entire series lies before or after the window) is silently omitted
from the returned signal map — the opposite of the claimed all-or-nothing
policy. -/
theorem get_flight_data_out_of_range_silent (lid : String) (log : LogData)
    (ts w : Int) (sigs : List String) (sig : String)
    (hl : lid ≠ "")
    (hout : extract_signal log.time_series_data (ts - w * 500) (ts + w * 500) sig
      = none) :
    (get_flight_data (some lid) (some log) ts (some sigs) w).isError = false ∧
    sig ∉ (get_flight_data (some lid) (some log) ts (some sigs) w).signalNames := by
  rw [get_flight_data_ok lid log ts (some sigs) w hl]
  constructor
  · rfl
  · exact notMem_signalNames_of_extract_none
      (fun s => extract_signal log.time_series_data (ts - w * 500) (ts + w * 500) s)
      sigs sig hout

set_option maxRecDepth 8000 in
/-- Witness for C2: requesting ATT at t = 5000 ms against a log whose ATT
samples end at 1099 ms yields no error and an ATT-free signal map. -/
theorem get_flight_data_out_of_range_silent_witness :
    (get_flight_data (some "log2") (some log2) 5000 (some ["ATT"]) 1).isError = false ∧
    "ATT" ∉ (get_flight_data (some "log2") (some log2) 5000 (some ["ATT"]) 1).signalNames :=
  get_flight_data_out_of_range_silent "log2" log2 5000 1 ["ATT"] "ATT"
    (by decide) rfl

set_option maxRecDepth 8000 in
/-- Counterexample to C2 as stated: the requested timestamp 5000 ms lies
after the last ATT sample (1099 ms), yet the extraction returns an
ordinary result whose signal map is silently empty — not an OutOfRange
error for the whole request. -/
theorem c2_silently_empty_counterexample :
    ((lookup_assoc att_series2.data "time_boot_ms").getD []).getLast? = some 1099 ∧
    ((1099 : Int) < 5000) ∧
    get_flight_data (some "log2") (some log2) 5000 (some ["ATT"]) 1
      = FlightResult.ok 5000 1 [] { mode := "Unknown", events := [], messages := [] } := by
  refine ⟨rfl, by decide, rfl⟩

theorem lookup_assoc_filterMap_pair (g : String → Option SignalData)
    (xs : List String) (sig : String) (sd : SignalData)
    (h : lookup_assoc (xs.filterMap (fun s => (g s).map (fun d => (s, d)))) sig
      = some sd) :
    g sig = some sd := by
  induction xs with
  | nil => exact absurd h (by simp [lookup_assoc])
  | cons x xs ih =>
    cases hx : g x with
    | none =>
      have hfx : ((g x).map (fun d => (x, d))) = none := by rw [hx]; rfl
      rw [List.filterMap_cons, hfx] at h
      exact ih h
    | some d =>
      have hfx : ((g x).map (fun d => (x, d))) = some (x, d) := by rw [hx]; rfl
      rw [List.filterMap_cons, hfx] at h
      by_cases hxs : x = sig
      · subst hxs
        have hhead : lookup_assoc ((x, d) :: xs.filterMap
            (fun s => (g s).map (fun d => (s, d)))) x = some d := by
          simp [lookup_assoc, List.find?]
        rw [hhead] at h
        rw [hx]
        injection h with h1
        rw [h1]
      · have hskip : lookup_assoc ((x, d) :: xs.filterMap
            (fun s => (g s).map (fun d => (s, d)))) sig
            = lookup_assoc (xs.filterMap (fun s => (g s).map (fun d => (s, d)))) sig := by
          simp [lookup_assoc, List.find?, hxs]
        rw [hskip] at h
        exact ih h

theorem extract_signal_some_spec (ts_data : List (String × SeriesData))
    (a b : Int) (sig : String) (sd : SignalData)
    (h : extract_signal ts_data a b sig = some sd) :
    ∃ series, resolve_series ts_data sig = some series ∧
      window_indices ((lookup_assoc series.data "time_boot_ms").getD []) a b ≠ [] ∧
      sd.fields = series.data.filterMap (fun p =>
        if p.1 = "time_boot_ms" then none
        else
          if window_values p.2
              (window_indices ((lookup_assoc series.data "time_boot_ms").getD []) a b)
              = [] then none
          else some (p.1, field_stats (window_values p.2
            (window_indices ((lookup_assoc series.data "time_boot_ms").getD []) a b)))) ∧
      sd.time_range =
        [((lookup_assoc series.data "time_boot_ms").getD []).getD
          ((window_indices ((lookup_assoc series.data "time_boot_ms").getD []) a b).headD 0) 0,
         ((lookup_assoc series.data "time_boot_ms").getD []).getD
          ((window_indices ((lookup_assoc series.data "time_boot_ms").getD []) a b).getLastD 0) 0] := by
  cases hr : resolve_series ts_data sig with
  | none =>
    rw [extract_signal, hr] at h
    exact absurd h (by simp)
  | some d =>
    rw [extract_signal, hr] at h
    simp only at h
    by_cases h1 : (lookup_assoc d.data "time_boot_ms").getD [] = []
    · rw [if_pos h1] at h
      exact absurd h (by simp)
    · rw [if_neg h1] at h
      by_cases h2 : window_indices ((lookup_assoc d.data "time_boot_ms").getD []) a b = []
      · rw [if_pos h2] at h
        exact absurd h (by simp)
      · rw [if_neg h2] at h
        injection h with h3
        refine ⟨d, rfl, h2, ?_, ?_⟩
        · rw [← h3]
        · rw [← h3]

theorem lookup_assoc_fields_spec (idx : List Nat) (data : List (String × List Int))
    (f : String) (st : FieldStats)
    (h : lookup_assoc (data.filterMap (fun p =>
        if p.1 = "time_boot_ms" then none
        else
          if window_values p.2 idx = [] then none
          else some (p.1, field_stats (window_values p.2 idx)))) f = some st) :
    ∃ vals, (f, vals) ∈ data ∧ st = field_stats (window_values vals idx) := by
  induction data with
  | nil => exact absurd h (by simp [lookup_assoc])
  | cons p ps ih =>
    by_cases hp1 : p.1 = "time_boot_ms"
    · rw [List.filterMap_cons, if_pos hp1] at h
      obtain ⟨vals, hm, hst⟩ := ih h
      exact ⟨vals, List.mem_cons_of_mem p hm, hst⟩
    · by_cases hwv : window_values p.2 idx = []
      · rw [List.filterMap_cons, if_neg hp1, if_pos hwv] at h
        obtain ⟨vals, hm, hst⟩ := ih h
        exact ⟨vals, List.mem_cons_of_mem p hm, hst⟩
      · rw [List.filterMap_cons, if_neg hp1, if_neg hwv] at h
        by_cases hpf : p.1 = f
        · have hhead : lookup_assoc ((p.1, field_stats (window_values p.2 idx)) ::
              ps.filterMap (fun p =>
                if p.1 = "time_boot_ms" then none
                else
                  if window_values p.2 idx = [] then none
                  else some (p.1, field_stats (window_values p.2 idx)))) f
              = some (field_stats (window_values p.2 idx)) := by
            simp [lookup_assoc, List.find?, hpf]
          rw [hhead] at h
          injection h with h1
          refine ⟨p.2, ?_, h1.symm⟩
          rw [← hpf]
          exact List.mem_cons_self p ps
        · have hskip : lookup_assoc ((p.1, field_stats (window_values p.2 idx)) ::
              ps.filterMap (fun p =>
                if p.1 = "time_boot_ms" then none
                else
                  if window_values p.2 idx = [] then none
                  else some (p.1, field_stats (window_values p.2 idx)))) f
              = lookup_assoc (ps.filterMap (fun p =>
                if p.1 = "time_boot_ms" then none
                else
                  if window_values p.2 idx = [] then none
                  else some (p.1, field_stats (window_values p.2 idx)))) f := by
            simp [lookup_assoc, List.find?, hpf]
          rw [hskip] at h
          obtain ⟨vals, hm, hst⟩ := ih h
          exact ⟨vals, List.mem_cons_of_mem p hm, hst⟩

theorem fieldValues_ok_none (t w' : Int) (sigl : List (String × SignalData))
    (ctx : ContextInfo) (sig f : String)
    (hs : lookup_assoc sigl sig = none) :
    FlightResult.fieldValues (.ok t w' sigl ctx) sig f = none := by
  show (match lookup_assoc sigl sig with
        | none => none
        | some sd => (lookup_assoc sd.fields f).map (·.values)) = none
  rw [hs]

theorem fieldValues_ok_some (t w' : Int) (sigl : List (String × SignalData))
    (ctx : ContextInfo) (sig f : String) (sd : SignalData)
    (hs : lookup_assoc sigl sig = some sd) :
    FlightResult.fieldValues (.ok t w' sigl ctx) sig f
      = (lookup_assoc sd.fields f).map (·.values) := by
  show (match lookup_assoc sigl sig with
        | none => none
        | some sd => (lookup_assoc sd.fields f).map (·.values))
      = (lookup_assoc sd.fields f).map (·.values)
  rw [hs]

theorem timeRange_ok_some (t w' : Int) (sigl : List (String × SignalData))
    (ctx : ContextInfo) (sig : String) (sd : SignalData)
    (hs : lookup_assoc sigl sig = some sd) :
    FlightResult.timeRange (.ok t w' sigl ctx) sig = some sd.time_range := by
  show (lookup_assoc sigl sig).map (·.time_range) = some sd.time_range
  rw [hs]
  rfl

/-- C1 (corrected): whenever the extraction reports values for a field of
a signal, those values are exactly the head-100 prefix
(`window_values[:100]`) of the full in-window value sequence — a
truncation-from-head with at most 100 entries, not a stride downsampling —
while the reported `time_range` still spans the first and last in-window
timestamps of the raw set. -/
theorem get_flight_data_values_head_capped (lid : String) (log : LogData)
    (ts w : Int) (sigs : Option (List String)) (sig f : String) (vs : List Int)
    (hl : lid ≠ "")
    (h : (get_flight_data (some lid) (some log) ts sigs w).fieldValues sig f
      = some vs) :
    ∃ series vals,
      resolve_series log.time_series_data sig = some series ∧
      (f, vals) ∈ series.data ∧
      vs = (window_values vals (window_indices
        ((lookup_assoc series.data "time_boot_ms").getD [])
        (ts - w * 500) (ts + w * 500))).take 100 ∧
      vs.length ≤ 100 ∧
      (get_flight_data (some lid) (some log) ts sigs w).timeRange sig
        = some
          [((lookup_assoc series.data "time_boot_ms").getD []).getD
            ((window_indices ((lookup_assoc series.data "time_boot_ms").getD [])
              (ts - w * 500) (ts + w * 500)).headD 0) 0,
           ((lookup_assoc series.data "time_boot_ms").getD []).getD
            ((window_indices ((lookup_assoc series.data "time_boot_ms").getD [])
              (ts - w * 500) (ts + w * 500)).getLastD 0) 0] := by
  rw [get_flight_data_ok lid log ts sigs w hl] at h ⊢
  cases hs : lookup_assoc ((sigs.getD DEFAULT_SIGNALS).filterMap (fun s =>
      (extract_signal log.time_series_data (ts - w * 500) (ts + w * 500) s).map
        (fun d => (s, d)))) sig with
  | none =>
    rw [fieldValues_ok_none _ _ _ _ _ _ hs] at h
    exact absurd h (by simp)
  | some sd =>
    rw [fieldValues_ok_some _ _ _ _ _ _ _ hs] at h
    have hext : extract_signal log.time_series_data (ts - w * 500) (ts + w * 500) sig
        = some sd :=
      lookup_assoc_filterMap_pair
        (fun s => extract_signal log.time_series_data (ts - w * 500) (ts + w * 500) s)
        (sigs.getD DEFAULT_SIGNALS) sig sd hs
    obtain ⟨series, hres, _hidx, hfields, htr⟩ :=
      extract_signal_some_spec log.time_series_data (ts - w * 500) (ts + w * 500) sig sd hext
    cases hf : lookup_assoc sd.fields f with
    | none =>
      rw [hf] at h
      exact absurd h (by simp)
    | some st =>
      rw [hf] at h
      have hvs : vs = st.values := by
        injection h with h1
        exact h1.symm
      rw [hfields] at hf
      obtain ⟨vals, hmem, hst⟩ := lookup_assoc_fields_spec _ series.data f st hf
      refine ⟨series, vals, hres, hmem, ?_, ?_, ?_⟩
      · rw [hvs, hst]
        rfl
      · rw [hvs, hst]
        show ((window_values vals (window_indices
          ((lookup_assoc series.data "time_boot_ms").getD [])
          (ts - w * 500) (ts + w * 500))).take 100).length ≤ 100
        rw [List.length_take]
        exact min_le_left _ _
      · rw [timeRange_ok_some _ _ _ _ _ _ hs, htr]

set_option maxRecDepth 8000 in
/-- Witness for C1: the concrete 200-sample log instantiates the head-cap
theorem at signal ATT, field Roll, with the returned values being the
head-100 prefix. -/
theorem get_flight_data_values_head_capped_witness :
    ∃ series vals,
      resolve_series log1.time_series_data "ATT" = some series ∧
      ("Roll", vals) ∈ series.data ∧
      att_ramp.take 100 = (window_values vals (window_indices
        ((lookup_assoc series.data "time_boot_ms").getD [])
        (100 - 1 * 500) (100 + 1 * 500))).take 100 ∧
      (att_ramp.take 100).length ≤ 100 ∧
      (get_flight_data (some "log1") (some log1) 100 (some ["ATT"]) 1).timeRange "ATT"
        = some
          [((lookup_assoc series.data "time_boot_ms").getD []).getD
            ((window_indices ((lookup_assoc series.data "time_boot_ms").getD [])
              (100 - 1 * 500) (100 + 1 * 500)).headD 0) 0,
           ((lookup_assoc series.data "time_boot_ms").getD []).getD
            ((window_indices ((lookup_assoc series.data "time_boot_ms").getD [])
              (100 - 1 * 500) (100 + 1 * 500)).getLastD 0) 0] :=
  get_flight_data_values_head_capped "log1" log1 100 1 (some ["ATT"]) "ATT" "Roll"
    (att_ramp.take 100) (by decide) rfl

set_option maxRecDepth 8000 in
/-- Counterexample to C1 as stated: with 200 in-window samples (above the
cap of 100 values kept per field), the returned values are the head
prefix 0..99 of the raw set — the last returned sample is 99, not the last
raw in-window sample 199 — so the result is a truncation-from-head, not a
stride downsampling preserving the last timestamp. -/
theorem c1_head_truncation_counterexample :
    (window_indices att_ramp (-400) 600).length = 200 ∧
    (get_flight_data (some "log1") (some log1) 100 (some ["ATT"]) 1).fieldValues
      "ATT" "Roll" = some (att_ramp.take 100) ∧
    (att_ramp.take 100).length = 100 ∧
    (att_ramp.take 100).getLast? = some 99 ∧
    att_ramp.getLast? = some 199 := by
  refine ⟨rfl, rfl, rfl, rfl, rfl⟩
